import Mathlib

/-!
Verification of the EDA dashboard (`src/pages/EDA.py`) against its
specification.

The script is a Streamlit page: it ingests uploaded CSV/Excel files into a
dict of pandas DataFrames (`dataframes`), optionally joins two of them with
`pd.merge`, filters the chosen dataset by columns and per-categorical-column
allow-lists (`filter_dataframe`), and renders summaries.  This file gives a
shallow embedding of the data model and of those operations, then settles the
specification's claims about them.

Modelling choices:
* A pandas DataFrame is `DataFrame`: an ordered list of (name, dtype) columns
  and an ordered list of rows; a cell is `Value` (integer, string, or
  missing/NaN).  Dtypes are collapsed to `numeric` (float/int) vs `object`
  (textual/categorical), which is the only distinction the script makes
  (`select_dtypes(include=["object", "category"])` vs
  `select_dtypes(include=["float", "int"])`).
* CSV/Excel byte-level parsing is out of scope (delegated to pandas by the
  spec); an uploaded file is therefore represented by its name together with
  the outcome pandas would produce for its bytes (`Except` value: a parsed
  DataFrame / sheet list, or a raised exception's message).
* A raised, uncaught Python exception is the `.error` case of `Except`,
  which aborts the rest of the run, exactly as an uncaught exception aborts
  the Streamlit script.
-/

namespace EDA

/-- A cell value: a number, a string, or a missing value (NaN/None). -/
inductive Value where
  | int (n : Int)
  | str (s : String)
  | missing
deriving DecidableEq, Repr

/-- A column dtype as the script distinguishes them:
`numeric` covers pandas float/int, `object` covers object/category. -/
inductive Dtype where
  | numeric
  | object
deriving DecidableEq, Repr

/-- A pandas DataFrame: ordered named columns with dtypes, ordered rows.
Each row lists one value per column, in column order. -/
structure DataFrame where
  cols : List (String × Dtype)
  rows : List (List Value)
deriving DecidableEq, Repr

/-- `df.columns.tolist()`. -/
def DataFrame.colNames (df : DataFrame) : List String :=
  df.cols.map Prod.fst

/-- The value of row `r` at column `c` of `df` (missing when `c` is absent). -/
def rowVal (df : DataFrame) (r : List Value) (c : String) : Value :=
  r.getD (df.colNames.findIdx (fun x => x = c)) Value.missing

/-- Dtype of column `c` in `df` (defaults to `object` for an absent name). -/
def dtypeOf (df : DataFrame) (c : String) : Dtype :=
  ((df.cols.find? (fun p => p.1 = c)).map Prod.snd).getD Dtype.object

/-- `df.select_dtypes(include=["object", "category"]).columns.tolist()`:
the categorical columns, in column order (EDA.py line 76). -/
def catCols (df : DataFrame) : List String :=
  (df.cols.filter (fun p => p.2 = Dtype.object)).map Prod.fst

/-- Distinct values keeping the first occurrence of each, as
`pandas.Series.unique` does.  `seen` accumulates values already emitted. -/
def dedupFirstAux : List Value → List Value → List Value
  | [], _ => []
  | a :: t, seen =>
      if a ∈ seen then dedupFirstAux t seen
      else a :: dedupFirstAux t (a :: seen)

/-- Distinct values of a list, first occurrences first (pandas `unique`). -/
def dedupFirst (l : List Value) : List Value :=
  dedupFirstAux l []

/-- `df[col].dropna().unique().tolist()` (EDA.py line 78): the distinct
non-missing values observed in column `c`, in first-occurrence order. -/
def uniqueNonNull (df : DataFrame) (c : String) : List Value :=
  dedupFirst ((df.rows.map (fun r => rowVal df r c)).filter
    (fun v => decide (v ≠ Value.missing)))

/-- `df = df[df[col].isin(selection)]` (EDA.py line 80): keep the rows whose
value in column `c` is a member of `selection`. -/
def filterStepDf (df : DataFrame) (c : String) (selection : List Value) :
    DataFrame :=
  { df with rows := df.rows.filter (fun r => decide (rowVal df r c ∈ selection)) }

/-- The loop body of `filter_dataframe` (EDA.py lines 77-80): compute the
options the multiselect offers from the current frame, apply the user's
selection, record the offered options.  `sel c options` is the user's
selection for column `c` when the widget offers `options` (the widget
default is `options` itself). -/
def filterTraceStep (sel : String → List Value → List Value)
    (st : DataFrame × List (String × List Value)) (c : String) :
    DataFrame × List (String × List Value) :=
  let options := uniqueNonNull st.1 c
  (filterStepDf st.1 c (sel c options), st.2 ++ [(c, options)])

/-- The loop of `filter_dataframe` (EDA.py lines 77-80), with the list of
options offered by each `st.multiselect` recorded as a trace. -/
def filterTrace (sel : String → List Value → List Value) (df : DataFrame) :
    DataFrame × List (String × List Value) :=
  (catCols df).foldl (filterTraceStep sel) (df, [])

/-- `filter_dataframe` (EDA.py lines 74-81): for each categorical column of
the incoming frame, offer its current distinct non-missing values and keep
only rows whose value is in the user's selection, re-binding `df` each time. -/
def filter_dataframe (sel : String → List Value → List Value)
    (df : DataFrame) : DataFrame :=
  (filterTrace sel df).1

/-- The options offered by the successive multiselect widgets of
`filter_dataframe`, paired with their column names. -/
def offeredOptions (sel : String → List Value → List Value)
    (df : DataFrame) : List (String × List Value) :=
  (filterTrace sel df).2

/-- The widget default: the user keeps every offered option
(`default=options`, EDA.py line 79). -/
def defaultSel : String → List Value → List Value :=
  fun _ options => options

/-- `df[selected_columns]` (EDA.py line 165): project onto the named columns,
in the given order. -/
def project (df : DataFrame) (selected : List String) : DataFrame :=
  { cols := selected.map (fun c => (c, dtypeOf df c)),
    rows := df.rows.map (fun r => selected.map (fun c => rowVal df r c)) }

/-- The claim C1 composite: select all of `df`'s columns, then run the row
filter with every allow-list left at its full default. -/
def applyFullFilter (df : DataFrame) : DataFrame :=
  filter_dataframe defaultSel (project df df.colNames)

/-- Well-formedness of a frame: distinct column names and rows of the right
width (what ingestion by pandas produces). -/
def WellFormed (df : DataFrame) : Prop :=
  df.colNames.Nodup ∧ ∀ r ∈ df.rows, r.length = df.cols.length

instance (df : DataFrame) : Decidable (WellFormed df) := by
  unfold WellFormed; infer_instance

/-! ## Join engine: `pd.merge(left_df, right_df, on=join_cols, how=join_type)` -/

/-- The four join kinds offered by the selectbox (EDA.py line 128). -/
inductive JoinKind where
  | inner
  | left
  | right
  | outer
deriving DecidableEq, Repr

/-- The tuple of key-column values of a row. -/
def keyTuple (df : DataFrame) (keys : List String) (r : List Value) :
    List Value :=
  keys.map (rowVal df r)

/-- Two rows match on the join keys when their key tuples are equal. -/
def keyMatch (ldf rdf : DataFrame) (keys : List String)
    (lr rr : List Value) : Bool :=
  decide (keyTuple ldf keys lr = keyTuple rdf keys rr)

/-- The right frame's non-key columns, in column order. -/
def rightNonKey (rdf : DataFrame) (keys : List String) :
    List (String × Dtype) :=
  rdf.cols.filter (fun p => decide (p.1 ∉ keys))

/-- A matched output row: the left row followed by the right row's non-key
values. -/
def combineRow (_ldf rdf : DataFrame) (keys : List String)
    (lr rr : List Value) : List Value :=
  lr ++ (rightNonKey rdf keys).map (fun p => rowVal rdf rr p.1)

/-- An unmatched left row in a left/outer join: missing values fill the
right-only columns. -/
def padLeftRow (rdf : DataFrame) (keys : List String) (lr : List Value) :
    List Value :=
  lr ++ (rightNonKey rdf keys).map (fun _ => Value.missing)

/-- An unmatched right row in a right/outer join: its key values fill the key
columns, missing values fill the remaining left columns. -/
def padRightRow (ldf rdf : DataFrame) (keys : List String) (rr : List Value) :
    List Value :=
  ldf.cols.map (fun p => if p.1 ∈ keys then rowVal rdf rr p.1 else Value.missing)
    ++ (rightNonKey rdf keys).map (fun p => rowVal rdf rr p.1)

/-- Output columns of `pd.merge`: the left columns (keys kept as-is, non-key
names also present on the right suffixed `_x`), then the right non-key
columns (names also present on the left suffixed `_y`). -/
def mergeOutCols (ldf rdf : DataFrame) (keys : List String) :
    List (String × Dtype) :=
  ldf.cols.map (fun p =>
      if p.1 ∈ keys then p
      else if p.1 ∈ rdf.colNames then (p.1 ++ "_x", p.2) else p)
    ++ (rightNonKey rdf keys).map (fun p =>
      if p.1 ∈ ldf.colNames then (p.1 ++ "_y", p.2) else p)

/-- Inner-join rows: every matching left/right pair, left-major order. -/
def innerRows (ldf rdf : DataFrame) (keys : List String) :
    List (List Value) :=
  ldf.rows.flatMap (fun lr =>
    (rdf.rows.filter (keyMatch ldf rdf keys lr)).map
      (combineRow ldf rdf keys lr))

/-- Left-join rows: every left row, combined with each match, or padded when
unmatched. -/
def leftRows (ldf rdf : DataFrame) (keys : List String) :
    List (List Value) :=
  ldf.rows.flatMap (fun lr =>
    let ms := rdf.rows.filter (keyMatch ldf rdf keys lr)
    if ms.isEmpty then [padLeftRow rdf keys lr]
    else ms.map (combineRow ldf rdf keys lr))

/-- Right-join rows: every right row, combined with each left match, or
padded when unmatched. -/
def rightJoinRows (ldf rdf : DataFrame) (keys : List String) :
    List (List Value) :=
  rdf.rows.flatMap (fun rr =>
    let ms := ldf.rows.filter (fun lr => keyMatch ldf rdf keys lr rr)
    if ms.isEmpty then [padRightRow ldf rdf keys rr]
    else ms.map (fun lr => combineRow ldf rdf keys lr rr))

/-- Outer-join rows: the left-join rows, then the unmatched right rows. -/
def outerRows (ldf rdf : DataFrame) (keys : List String) :
    List (List Value) :=
  leftRows ldf rdf keys ++
    (rdf.rows.filter (fun rr =>
      decide (¬ ldf.rows.any (fun lr => keyMatch ldf rdf keys lr rr)))).map
      (padRightRow ldf rdf keys)

/-- The rows of the merge result, per join kind. -/
def mergeRows (ldf rdf : DataFrame) (keys : List String) :
    JoinKind → List (List Value)
  | JoinKind.inner => innerRows ldf rdf keys
  | JoinKind.left => leftRows ldf rdf keys
  | JoinKind.right => rightJoinRows ldf rdf keys
  | JoinKind.outer => outerRows ldf rdf keys

/-- The merge result frame (the value `pd.merge` returns when it does not
raise). -/
def merge (ldf rdf : DataFrame) (keys : List String) (how : JoinKind) :
    DataFrame :=
  { cols := mergeOutCols ldf rdf keys, rows := mergeRows ldf rdf keys how }

/-- `pd.merge` as a fallible call: it raises (here `.error`) when no keys are
given, a key is absent from a frame, key dtypes are incompatible across the
frames (pandas `ValueError: you are trying to merge on incompatible
columns`), or the `_x`/`_y` suffixing would leave duplicate output column
names (pandas `MergeError`); otherwise it returns the merged frame. -/
def mergeE (ldf rdf : DataFrame) (keys : List String) (how : JoinKind) :
    Except String DataFrame :=
  if keys.isEmpty then
    Except.error "No common columns to perform merge on"
  else if keys.all (fun k =>
      decide (k ∈ ldf.colNames) && decide (k ∈ rdf.colNames)) then
    if keys.all (fun k => decide (dtypeOf ldf k = dtypeOf rdf k)) then
      if ((mergeOutCols ldf rdf keys).map Prod.fst).Nodup then
        Except.ok (merge ldf rdf keys how)
      else Except.error "suffixes cause duplicate columns"
    else Except.error "You are trying to merge on incompatible columns"
  else Except.error "KeyError"

/-! ## Script level: ingestion, registry, join section, EDA section -/

/-- The dataset registry: the script's `dataframes` dict (insertion-ordered,
as Python dicts are). -/
abbrev Registry : Type := List (String × DataFrame)

deriving instance DecidableEq for Except

/-- `dataframes[name]` lookup. -/
def regLookup (reg : Registry) (k : String) : Option DataFrame :=
  (reg.find? (fun p => p.1 = k)).map Prod.snd

/-- `dataframes[k] = v`: overwrite in place when the key exists, otherwise
append (Python dict assignment). -/
def regInsert (reg : Registry) (k : String) (v : DataFrame) : Registry :=
  if reg.any (fun p => p.1 = k) then
    reg.map (fun p => if p.1 = k then (k, v) else p)
  else reg ++ [(k, v)]

/-- `dataframes.update(d)` for an insertion-ordered dict `d`. -/
def regUpdate (reg : Registry) (ds : List (String × DataFrame)) : Registry :=
  ds.foldl (fun r p => regInsert r p.1 p.2) reg

/-- An uploaded file.  Byte-level parsing is delegated to pandas and out of
scope, so the content is represented by the outcome pandas would produce for
it: `csvParse` is what `pd.read_csv(file)` yields (a frame, or the raised
exception's message), `excelParse` what `pd.ExcelFile(file)` plus
`xl.parse(sheet)` over `xl.sheet_names` yields (named sheets, or a raised
exception's message). -/
structure UploadedFile where
  name : String
  csvParse : Except String DataFrame
  excelParse : Except String (List (String × DataFrame))

/-- Python `str.split(".")` over the character list: splits at every dot,
keeping empty pieces, and yields one piece for a dot-free input. -/
def splitDot : List Char → List (List Char)
  | [] => [[]]
  | c :: rest =>
      if c = '.' then [] :: splitDot rest
      else
        match splitDot rest with
        | [] => [[c]]
        | g :: t => (c :: g) :: t

/-- Python `str.lower()` restricted to ASCII, which covers file
extensions. -/
def lowerChar (c : Char) : Char :=
  if 'A' ≤ c ∧ c ≤ 'Z' then Char.ofNat (c.toNat + 32) else c

/-- `file.name.split(".")[-1].lower()` (EDA.py line 12). -/
def fileExt (name : String) : String :=
  String.mk (((splitDot name.data).getLastD []).map lowerChar)

/-- The extensions `load_dataframe` recognizes (EDA.py lines 13 and 15). -/
def supportedExt (e : String) : Bool :=
  decide (e = "csv") || decide (e = "xlsx") || decide (e = "xls")

/-- `load_dataframe` (EDA.py lines 11-18): a CSV file yields one dataset
named after the file; an Excel file yields one dataset per sheet named
`"<file> - <sheet>"`; any other extension yields none.  There is no
try/except here: a pandas parse exception propagates (the `.error` case). -/
def load_dataframe (f : UploadedFile) :
    Except String (List (String × DataFrame)) :=
  if fileExt f.name = "csv" then
    match f.csvParse with
    | Except.ok df => Except.ok [(f.name, df)]
    | Except.error e => Except.error e
  else if fileExt f.name = "xlsx" ∨ fileExt f.name = "xls" then
    match f.excelParse with
    | Except.ok sheets =>
        Except.ok (sheets.map (fun p => (f.name ++ " - " ++ p.1, p.2)))
    | Except.error e => Except.error e
  else
    Except.ok []

/-- The registry-building loop (EDA.py lines 96-99):
`dataframes = {}` then `dataframes.update(load_dataframe(file))` per upload.
An exception raised by `load_dataframe` aborts the whole run (`.error`). -/
def buildRegistry (uploads : List UploadedFile) : Except String Registry :=
  uploads.foldlM (fun reg f => (load_dataframe f).map (regUpdate reg)) []

/-- The UI state the join section consumes: the two selectbox choices, the
join-column multiselect, the join-type selectbox, and whether the
"Join Datasets" button was pressed on this run. -/
structure JoinUi where
  left_name : String
  right_name : String
  join_cols : List String
  join_type : JoinKind
  joinClicked : Bool

/-- The synthesized registry name of a join result (EDA.py line 133). -/
def joinLabel (leftName rightName : String) : String :=
  "[Joined] " ++ leftName ++ " x " ++ rightName

/-- `list(set(left_df.columns) & set(right_df.columns))` (EDA.py line 124):
the shared column names (order is irrelevant to the script, which only
tests membership and emptiness). -/
def commonCols (ldf rdf : DataFrame) : List String :=
  ldf.colNames.filter (fun c => decide (c ∈ rdf.colNames))

/-- The body of the join section once both selected datasets are looked up
(EDA.py lines 124-143): when they share columns, at least one join column is
selected and the button is pressed, attempt `pd.merge`; on success store the
result under the join label, on failure show `"Join failed: ..."` and leave
the registry alone.  Returns the registry after the section and the error
message shown, if any. -/
def joinBody (reg : Registry) (ui : JoinUi) :
    Option DataFrame → Option DataFrame → Registry × Option String
  | some ldf, some rdf =>
      if (commonCols ldf rdf).isEmpty then (reg, none)
      else if ui.join_cols.isEmpty then (reg, none)
      else if ¬ (ui.join_cols.all (fun c => decide (c ∈ commonCols ldf rdf)))
        then (reg, none)
      else if ¬ ui.joinClicked then (reg, none)
      else
        match mergeE ldf rdf ui.join_cols ui.join_type with
        | Except.ok j =>
            (regInsert reg (joinLabel ui.left_name ui.right_name) j, none)
        | Except.error e => (reg, some ("Join failed: " ++ e))
  | _, _ => (reg, none)

/-- The join section (EDA.py lines 117-145): requires two different selected
datasets, then proceeds with `joinBody` on the looked-up frames.  (The
selectboxes only offer registry keys, so the lookups succeed in every
reachable UI state; an absent name is modelled as a no-op.) -/
def joinSection (reg : Registry) (ui : JoinUi) : Registry × Option String :=
  if ui.left_name = ui.right_name then (reg, none)
  else joinBody reg ui (regLookup reg ui.left_name) (regLookup reg ui.right_name)

/-- One whole-script run up to and including the join section: the registry
available to the "Choose Dataset for EDA" selectbox.  The registry is rebuilt
from the current uploads on every run (EDA.py line 96); nothing is read from
or written to any session-scoped store. -/
def scriptRegistry (uploads : List UploadedFile) (ui : JoinUi) :
    Except String Registry :=
  (buildRegistry uploads).map (fun reg => (joinSection reg ui).1)

/-- The column/row-selection section (EDA.py lines 158-166): with no columns
selected the script warns and stops (`none`: nothing downstream — download,
overview, stats, plots — runs); otherwise the projected, row-filtered frame
is produced and all downstream views render from it. -/
def edaSection (df : DataFrame) (selected_columns : List String)
    (sel : String → List Value → List Value) : Option DataFrame :=
  if selected_columns.isEmpty then none
  else some (filter_dataframe sel (project df selected_columns))

/-! ## Concrete datasets used by the scenario claims and witnesses -/

/-- Dataset A of the join scenario: columns [id, val], rows [(1,10),(2,20)]. -/
def dfA : DataFrame :=
  { cols := [("id", Dtype.numeric), ("val", Dtype.numeric)],
    rows := [[Value.int 1, Value.int 10], [Value.int 2, Value.int 20]] }

/-- Dataset B of the join scenario: columns [id, val2], rows [(1,100),(3,300)]. -/
def dfB : DataFrame :=
  { cols := [("id", Dtype.numeric), ("val2", Dtype.numeric)],
    rows := [[Value.int 1, Value.int 100], [Value.int 3, Value.int 300]] }

/-- A variant of B sharing the non-key column name `val` with A. -/
def dfBshared : DataFrame :=
  { cols := [("id", Dtype.numeric), ("val", Dtype.numeric)],
    rows := [[Value.int 1, Value.int 100], [Value.int 3, Value.int 300]] }

/-- A variant of B whose `id` column is textual, so its dtype is
incompatible with A's numeric `id` and `pd.merge` raises. -/
def dfBbadKey : DataFrame :=
  { cols := [("id", Dtype.object), ("val2", Dtype.numeric)],
    rows := [[Value.str "1", Value.int 100], [Value.str "3", Value.int 300]] }

/-- The filter scenario dataset: one categorical column `species` over 10
rows with values 4×A, 3×B, 3×C. -/
def dfSpecies : DataFrame :=
  { cols := [("species", Dtype.object)],
    rows := [[Value.str "A"], [Value.str "A"], [Value.str "A"], [Value.str "A"],
             [Value.str "B"], [Value.str "B"], [Value.str "B"],
             [Value.str "C"], [Value.str "C"], [Value.str "C"]] }

/-- A dataset with a missing value in a categorical column: the row filter
drops its row even with every allow-list at the full default. -/
def dfMissingCat : DataFrame :=
  { cols := [("c", Dtype.object)],
    rows := [[Value.str "A"], [Value.missing]] }

/-- Two categorical columns whose values are aligned pairwise: filtering the
first column changes the distinct values the second column still exhibits. -/
def dfCascade : DataFrame :=
  { cols := [("a", Dtype.object), ("b", Dtype.object)],
    rows := [[Value.str "A1", Value.str "B1"], [Value.str "A2", Value.str "B2"]] }

/-- The selection used in the cascading demonstration: keep only `A1` in
column `a`, keep everything offered elsewhere. -/
def cascadeSel : String → List Value → List Value :=
  fun c options => if c = "a" then [Value.str "A1"] else options

/-- An upload whose bytes parse as `dfA` (a well-formed CSV). -/
def fileA : UploadedFile :=
  { name := "a.csv", csvParse := Except.ok dfA,
    excelParse := Except.error "not an excel file" }

/-- An upload whose bytes parse as `dfB`. -/
def fileB : UploadedFile :=
  { name := "b.csv", csvParse := Except.ok dfB,
    excelParse := Except.error "not an excel file" }

/-- An upload with a `.csv` extension whose bytes `pd.read_csv` cannot
parse: the call raises. -/
def fileBadCsv : UploadedFile :=
  { name := "bad.csv",
    csvParse := Except.error "EmptyDataError: No columns to parse from file",
    excelParse := Except.error "not an excel file" }

/-- An upload with an unsupported extension. -/
def fileTxt : UploadedFile :=
  { name := "notes.txt", csvParse := Except.error "never called",
    excelParse := Except.error "never called" }

/-- The join-section UI state of the scenario: join `a.csv` with `b.csv` on
`id`, button pressed. -/
def uiJoinClicked (how : JoinKind) : JoinUi :=
  { left_name := "a.csv", right_name := "b.csv", join_cols := ["id"],
    join_type := how, joinClicked := true }

/-- The same UI state on the next run: the button is a momentary trigger, so
it reads false on any later re-execution. -/
def uiJoinIdle (how : JoinKind) : JoinUi :=
  { left_name := "a.csv", right_name := "b.csv", join_cols := ["id"],
    join_type := how, joinClicked := false }

/-! ## Lemmas about the column/row filter -/

/-- `rowVal` only looks at the column names, not the rows. -/
theorem rowVal_eq_of_cols {d df : DataFrame} (h : d.cols = df.cols)
    (r : List Value) (c : String) : rowVal d r c = rowVal df r c := by
  unfold rowVal DataFrame.colNames
  rw [h]

/-- The filter loop never changes the column structure. -/
theorem filterFold_cols (sel : String → List Value → List Value)
    (cats : List String) :
    ∀ (st : DataFrame × List (String × List Value)),
      (cats.foldl (filterTraceStep sel) st).1.cols = st.1.cols := by
  induction cats with
  | nil => intro st; rfl
  | cons c cs ih =>
      intro st
      rw [List.foldl_cons, ih]
      rfl

/-- With per-column allow-lists that do not depend on the offered options,
the filter loop keeps exactly the rows passing every column's membership
test. -/
theorem filterFold_rows (sel : String → List Value → List Value)
    (al : String → List Value) (hsel : ∀ c opts, sel c opts = al c)
    (df : DataFrame) (cats : List String) :
    ∀ (st : DataFrame × List (String × List Value)), st.1.cols = df.cols →
      (cats.foldl (filterTraceStep sel) st).1.rows
        = st.1.rows.filter (fun r =>
            cats.all (fun c => decide (rowVal df r c ∈ al c))) := by
  induction cats with
  | nil =>
      intro st _
      simp [List.filter_true]
  | cons c cs ih =>
      intro st h
      rw [List.foldl_cons]
      rw [ih _ (by rw [show (filterTraceStep sel st c).1.cols = st.1.cols from rfl, h])]
      show ((filterStepDf st.1 c (sel c (uniqueNonNull st.1 c))).rows).filter _ = _
      rw [hsel]
      unfold filterStepDf
      rw [List.filter_filter]
      apply List.filter_congr
      intro r _
      rw [List.all_cons, rowVal_eq_of_cols h, Bool.and_comm]

/-- Claim C7: a row survives `filter_dataframe` iff, for every categorical
column, its value there belongs to that column's allow-list; on the 10-row
`species` dataset (4×A, 3×B, 3×C), the allow-list {A, B} keeps exactly 7
rows, all with species in {A, B}. -/
theorem filter_row_predicate :
    (∀ (df : DataFrame) (al : String → List Value) (r : List Value),
      r ∈ (filter_dataframe (fun c _ => al c) df).rows ↔
        r ∈ df.rows ∧ ∀ c ∈ catCols df, rowVal df r c ∈ al c) ∧
    (filter_dataframe (fun _ _ => [Value.str "A", Value.str "B"])
        dfSpecies).rows.length = 7 ∧
    (∀ r ∈ (filter_dataframe (fun _ _ => [Value.str "A", Value.str "B"])
        dfSpecies).rows,
      rowVal dfSpecies r "species" ∈ [Value.str "A", Value.str "B"]) := by
  refine ⟨?_, by decide, by decide⟩
  intro df al r
  unfold filter_dataframe filterTrace
  rw [filterFold_rows (fun c _ => al c) al (fun _ _ => rfl) df (catCols df)
    (df, []) rfl]
  rw [List.mem_filter]
  simp only [List.all_eq_true, decide_eq_true_eq]

/-- Any value present in `l` and not yet seen appears in the deduplicated
list. -/
theorem mem_dedupFirstAux (v : Value) :
    ∀ (l seen : List Value), v ∈ l → v ∉ seen → v ∈ dedupFirstAux l seen := by
  intro l
  induction l with
  | nil => intro seen h; exact absurd h (List.not_mem_nil v)
  | cons a t ih =>
      intro seen hv hs
      unfold dedupFirstAux
      by_cases ha : a ∈ seen
      · rw [if_pos ha]
        rcases List.mem_cons.mp hv with hva | hvt
        · exact absurd (hva ▸ ha) hs
        · exact ih seen hvt hs
      · rw [if_neg ha]
        by_cases hva : v = a
        · exact hva ▸ List.mem_cons_self a _
        · rcases List.mem_cons.mp hv with hva2 | hvt
          · exact absurd hva2 hva
          · exact List.mem_cons_of_mem a
              (ih (a :: seen) hvt (by
                intro hmem
                rcases List.mem_cons.mp hmem with h1 | h2
                · exact hva h1
                · exact hs h2))

/-- A non-missing value observed in column `c` is among the options the
multiselect offers for `c`. -/
theorem mem_uniqueNonNull (df : DataFrame) (c : String) (r : List Value)
    (hr : r ∈ df.rows) (hm : rowVal df r c ≠ Value.missing) :
    rowVal df r c ∈ uniqueNonNull df c := by
  unfold uniqueNonNull dedupFirst
  apply mem_dedupFirstAux
  · exact List.mem_filter.mpr
      ⟨List.mem_map_of_mem (fun x => rowVal df x c) hr, decide_eq_true hm⟩
  · exact List.not_mem_nil _

/-- When column `c` has no missing value, filtering on the full default
allow-list keeps every row. -/
theorem filterStepDf_default_id (df : DataFrame) (c : String)
    (h : ∀ r ∈ df.rows, rowVal df r c ≠ Value.missing) :
    filterStepDf df c (uniqueNonNull df c) = df := by
  unfold filterStepDf
  rw [List.filter_eq_self.mpr
    (fun r hr => decide_eq_true (mem_uniqueNonNull df c r hr (h r hr)))]

/-- With every categorical value present and non-missing, the whole filter
loop at default selections is the identity. -/
theorem filterFold_default_id (cats : List String) :
    ∀ (df : DataFrame) (tr : List (String × List Value)),
      (∀ c ∈ cats, ∀ r ∈ df.rows, rowVal df r c ≠ Value.missing) →
      (cats.foldl (filterTraceStep defaultSel) (df, tr)).1 = df := by
  induction cats with
  | nil => intro df tr _; rfl
  | cons c cs ih =>
      intro df tr h
      rw [List.foldl_cons]
      have hstep : filterTraceStep defaultSel (df, tr) c
          = (df, tr ++ [(c, uniqueNonNull df c)]) := by
        show (filterStepDf df c (uniqueNonNull df c),
            tr ++ [(c, uniqueNonNull df c)])
          = (df, tr ++ [(c, uniqueNonNull df c)])
        rw [filterStepDf_default_id df c (h c (List.mem_cons_self c cs))]
      rw [hstep]
      exact ih df _ (fun x hx => h x (List.mem_cons_of_mem c hx))

/-- With distinct column names, `find?` by name recovers the column entry. -/
theorem find?_nodup_fst :
    ∀ (l : List (String × Dtype)), (l.map Prod.fst).Nodup →
      ∀ p ∈ l, l.find? (fun q => q.1 = p.1) = some p := by
  intro l
  induction l with
  | nil => intro _ p hp; exact absurd hp (List.not_mem_nil p)
  | cons a t ih =>
      intro hnd p hp
      rcases List.mem_cons.mp hp with hpa | hpt
      · subst hpa
        exact List.find?_cons_of_pos _ (by simp)
      · have hne : a.1 ≠ p.1 := by
          intro he
          have : a.1 ∈ t.map Prod.fst := he ▸ List.mem_map_of_mem Prod.fst hpt
          exact (List.nodup_cons.mp (by simpa using hnd)).1 this
        rw [List.find?_cons_of_neg _ (by simpa using hne)]
        exact ih (List.nodup_cons.mp (by simpa using hnd)).2 p hpt

/-- In a duplicate-free list, searching for the i-th element finds index i. -/
theorem findIdx_nodup_getElem :
    ∀ (l : List String), l.Nodup → ∀ (i : Nat) (h : i < l.length),
      l.findIdx (fun x => x = l[i]) = i := by
  intro l
  induction l with
  | nil => intro _ i h; exact absurd h (Nat.not_lt_zero i)
  | cons a t ih =>
      intro hnd i h
      match i with
      | 0 => simp [List.findIdx_cons]
      | Nat.succ j =>
          have hj : j < t.length := Nat.lt_of_succ_lt_succ h
          have hget : (a :: t)[j + 1] = t[j] := rfl
          rw [hget, List.findIdx_cons]
          have hne : a ≠ t[j] := by
            intro he
            exact (List.nodup_cons.mp hnd).1 (he ▸ List.getElem_mem hj)
          rw [show (decide (a = t[j])) = false from decide_eq_false hne]
          rw [ih (List.nodup_cons.mp hnd).2 j hj]
          rfl

/-- Selecting all of a well-formed frame's columns, in order, is the
identity (pandas `df[df.columns.tolist()]`). -/
theorem project_self (df : DataFrame) (hwf : WellFormed df) :
    project df df.colNames = df := by
  obtain ⟨hnd, hlen⟩ := hwf
  unfold project
  have hcols : df.colNames.map (fun c => (c, dtypeOf df c)) = df.cols := by
    unfold DataFrame.colNames
    rw [List.map_map]
    have : ∀ p ∈ df.cols, ((fun c => (c, dtypeOf df c)) ∘ Prod.fst) p = id p := by
      intro p hp
      show (p.1, dtypeOf df p.1) = p
      unfold dtypeOf
      rw [find?_nodup_fst df.cols hnd p hp]
      rfl
    rw [List.map_congr_left this, List.map_id]
  have hrows : df.rows.map (fun r => df.colNames.map (fun c => rowVal df r c))
      = df.rows := by
    have : ∀ r ∈ df.rows,
        (fun r => df.colNames.map (fun c => rowVal df r c)) r = id r := by
      intro r hr
      show df.colNames.map (fun c => rowVal df r c) = r
      have hlr : r.length = df.colNames.length := by
        rw [hlen r hr]
        unfold DataFrame.colNames
        rw [List.length_map]
      apply List.ext_getElem
      · rw [List.length_map, hlr]
      · intro i h1 h2
        rw [List.getElem_map]
        unfold rowVal
        have hi : i < df.colNames.length := by
          rw [List.length_map] at h1; exact h1
        rw [findIdx_nodup_getElem df.colNames hnd i hi]
        exact List.getD_eq_getElem r Value.missing h2
    rw [List.map_congr_left this, List.map_id]
  rw [hcols, hrows]

/-- Claim C1 counterexample: on a dataset with a missing value in a
categorical column, the full-default filter drops that row, so the result is
not equal to the input. -/
theorem filter_identity_fails_on_missing :
    applyFullFilter dfMissingCat ≠ dfMissingCat := by decide

/-- Claim C1 (amended): for a well-formed dataset with no missing values in
its categorical columns, selecting all columns and filtering with the full
default allow-lists returns the dataset unchanged. -/
theorem filter_full_default_identity (df : DataFrame) (hwf : WellFormed df)
    (hmiss : ∀ r ∈ df.rows, ∀ c ∈ catCols df, rowVal df r c ≠ Value.missing) :
    applyFullFilter df = df := by
  unfold applyFullFilter
  rw [project_self df hwf]
  unfold filter_dataframe filterTrace
  exact filterFold_default_id (catCols df) df []
    (fun c hc r hr => hmiss r hr c hc)

/-- Witness for C1's amended theorem: the species dataset is returned
unchanged by the full-default filter. -/
theorem filter_full_default_identity_witness :
    applyFullFilter dfSpecies = dfSpecies :=
  filter_full_default_identity dfSpecies (by decide) (by decide)

/-- The filter loop only ever appends to the recorded trace. -/
theorem filterFold_trace_append (sel : String → List Value → List Value) :
    ∀ (cats : List String) (d : DataFrame) (tr : List (String × List Value)),
      (cats.foldl (filterTraceStep sel) (d, tr)).2
        = tr ++ (cats.foldl (filterTraceStep sel) (d, [])).2 := by
  intro cats
  induction cats with
  | nil => intro d tr; simp
  | cons c cs ih =>
      intro d tr
      rw [List.foldl_cons, List.foldl_cons]
      show (cs.foldl (filterTraceStep sel)
          (filterStepDf d c (sel c (uniqueNonNull d c)),
            tr ++ [(c, uniqueNonNull d c)])).2
        = tr ++ (cs.foldl (filterTraceStep sel)
          (filterStepDf d c (sel c (uniqueNonNull d c)),
            [] ++ [(c, uniqueNonNull d c)])).2
      rw [ih, ih (filterStepDf d c (sel c (uniqueNonNull d c)))
        ([] ++ [(c, uniqueNonNull d c)])]
      simp

/-- With option-independent allow-lists, the i-th multiselect of the filter
loop offers the distinct non-missing values of the i-th categorical column
among the rows that survived the first i membership tests. -/
theorem filterFold_trace_getElem (sel : String → List Value → List Value)
    (al : String → List Value) (hsel : ∀ c opts, sel c opts = al c)
    (df : DataFrame) :
    ∀ (cats : List String) (d : DataFrame) (i : Nat), d.cols = df.cols →
      ((cats.foldl (filterTraceStep sel) (d, [])).2)[i]?
        = (cats[i]?).map (fun c =>
            (c, dedupFirst
              (((d.rows.filter (fun r => (cats.take i).all
                  (fun x => decide (rowVal df r x ∈ al x)))).map
                (fun r => rowVal df r c)).filter
                (fun v => decide (v ≠ Value.missing))))) := by
  intro cats
  induction cats with
  | nil =>
      intro d i _
      simp
  | cons c cs ih =>
      intro d i h
      rw [List.foldl_cons]
      show ((cs.foldl (filterTraceStep sel)
          (filterStepDf d c (sel c (uniqueNonNull d c)),
            [] ++ [(c, uniqueNonNull d c)])).2)[i]? = _
      rw [filterFold_trace_append]
      rw [List.nil_append, List.singleton_append]
      match i with
      | 0 =>
          rw [List.getElem?_cons_zero, List.getElem?_cons_zero,
            Option.map_some']
          have hmaps : d.rows.map (fun r => rowVal d r c)
              = d.rows.map (fun r => rowVal df r c) :=
            List.map_congr_left (fun r _ => rowVal_eq_of_cols h r c)
          simp only [List.take_zero, List.all_nil, List.filter_true]
          unfold uniqueNonNull dedupFirst
          rw [hmaps]
      | j + 1 =>
          rw [List.getElem?_cons_succ,
            ih (filterStepDf d c (sel c (uniqueNonNull d c))) j h,
            List.getElem?_cons_succ]
          have hrows : (filterStepDf d c (sel c (uniqueNonNull d c))).rows.filter
              (fun r => (cs.take j).all (fun x => decide (rowVal df r x ∈ al x)))
              = d.rows.filter (fun r => ((c :: cs).take (j + 1)).all
                  (fun x => decide (rowVal df r x ∈ al x))) := by
            show (d.rows.filter (fun r =>
                decide (rowVal d r c ∈ sel c (uniqueNonNull d c)))).filter _ = _
            rw [List.filter_filter]
            apply List.filter_congr
            intro r _
            rw [List.take_succ_cons, List.all_cons, rowVal_eq_of_cols h, hsel]
            exact Bool.and_comm _ _
          have hfun : (fun c2 => (c2, dedupFirst
              ((((filterStepDf d c (sel c (uniqueNonNull d c))).rows.filter
                  (fun r => (cs.take j).all
                    (fun x => decide (rowVal df r x ∈ al x)))).map
                (fun r => rowVal df r c2)).filter
                (fun v => decide (v ≠ Value.missing)))))
              = (fun c2 => (c2, dedupFirst
              (((d.rows.filter (fun r => ((c :: cs).take (j + 1)).all
                  (fun x => decide (rowVal df r x ∈ al x)))).map
                (fun r => rowVal df r c2)).filter
                (fun v => decide (v ≠ Value.missing))))) := by
            funext c2
            rw [hrows]
          rw [hfun]

/-- Claim C10: because the loop re-binds `df`, the i-th multiselect of the
row filter offers the distinct non-missing values of the i-th categorical
column among only the rows that survived the earlier columns' filters; on
the concrete two-column dataset, selecting only `A1` in column `a` makes the
widget for `b` offer `[B1]`, not the original dataset's distinct values
`[B1, B2]`. -/
theorem cascading_allowlists :
    (∀ (df : DataFrame) (al : String → List Value) (i : Nat),
      (offeredOptions (fun c _ => al c) df)[i]?
        = ((catCols df)[i]?).map (fun c =>
            (c, dedupFirst
              (((df.rows.filter (fun r => ((catCols df).take i).all
                  (fun x => decide (rowVal df r x ∈ al x)))).map
                (fun r => rowVal df r c)).filter
                (fun v => decide (v ≠ Value.missing)))))) ∧
    offeredOptions cascadeSel dfCascade
      = [("a", [Value.str "A1", Value.str "A2"]), ("b", [Value.str "B1"])] ∧
    uniqueNonNull dfCascade "b" = [Value.str "B1", Value.str "B2"] := by
  refine ⟨?_, by decide, by decide⟩
  intro df al i
  unfold offeredOptions filterTrace
  exact filterFold_trace_getElem (fun c _ => al c) al (fun _ _ => rfl) df
    (catCols df) df i rfl

/-! ## Lemmas about the join engine -/

/-- Pointwise equal block lengths give equal flattened lengths. -/
theorem length_flatMap_congr {α β γ : Type} (L : List α) (f : α → List β)
    (g : α → List γ) (h : ∀ a, (f a).length = (g a).length) :
    (L.flatMap f).length = (L.flatMap g).length := by
  induction L with
  | nil => rfl
  | cons a t ih =>
      rw [List.flatMap_cons, List.flatMap_cons, List.length_append,
        List.length_append, h a, ih]

/-- Pointwise bounded block lengths give a bounded flattened length. -/
theorem length_flatMap_le {α β γ : Type} (L : List α) (f : α → List β)
    (g : α → List γ) (h : ∀ a, (f a).length ≤ (g a).length) :
    (L.flatMap f).length ≤ (L.flatMap g).length := by
  induction L with
  | nil => exact Nat.le_refl 0
  | cons a t ih =>
      rw [List.flatMap_cons, List.flatMap_cons, List.length_append,
        List.length_append]
      exact Nat.add_le_add (h a) ih

/-- Growing every block by the head element's matches adds that element's
match count to the flattened length. -/
theorem length_flatMap_filter_cons {α β : Type} (a : α) (t : List α)
    (R : List β) (p : α → β → Bool) :
    (R.flatMap (fun b => (a :: t).filter (fun x => p x b))).length
      = R.countP (fun b => p a b)
        + (R.flatMap (fun b => t.filter (fun x => p x b))).length := by
  induction R with
  | nil => rfl
  | cons b R ihr =>
      rw [List.flatMap_cons, List.flatMap_cons, List.length_append,
        List.length_append, List.countP_cons, ihr, List.filter_cons]
      by_cases hab : p a b = true
      · rw [if_pos hab, if_pos hab, List.length_cons]
        omega
      · rw [if_neg hab, if_neg hab]
        omega

/-- Counting matching pairs row-major equals counting them column-major. -/
theorem length_flatMap_filter_comm {α β : Type} (L : List α) (R : List β)
    (p : α → β → Bool) :
    (L.flatMap (fun a => R.filter (fun b => p a b))).length
      = (R.flatMap (fun b => L.filter (fun a => p a b))).length := by
  induction L with
  | nil =>
      induction R with
      | nil => rfl
      | cons b R ihr =>
          rw [List.flatMap_cons]
          exact ihr
  | cons a t ih =>
      rw [List.flatMap_cons, List.length_append, ih,
        length_flatMap_filter_cons, List.countP_eq_length_filter]

/-- The inner join produces one row per matching left/right pair. -/
theorem innerRows_length (ldf rdf : DataFrame) (keys : List String) :
    (innerRows ldf rdf keys).length
      = (ldf.rows.flatMap (fun lr =>
          rdf.rows.filter (fun rr => keyMatch ldf rdf keys lr rr))).length := by
  unfold innerRows
  exact length_flatMap_congr _ _ _ (fun lr => List.length_map _ _)

/-- Inner-join row count is bounded by the left-join row count. -/
theorem inner_le_left (ldf rdf : DataFrame) (keys : List String) :
    (innerRows ldf rdf keys).length ≤ (leftRows ldf rdf keys).length := by
  unfold innerRows leftRows
  apply length_flatMap_le
  intro lr
  rw [List.length_map]
  show _ ≤ (if (rdf.rows.filter (keyMatch ldf rdf keys lr)).isEmpty
      then [padLeftRow rdf keys lr]
      else (rdf.rows.filter (keyMatch ldf rdf keys lr)).map
        (combineRow ldf rdf keys lr)).length
  by_cases he : (rdf.rows.filter (keyMatch ldf rdf keys lr)).isEmpty
  · rw [if_pos he, List.isEmpty_iff.mp he]
    exact Nat.zero_le 1
  · rw [if_neg he, List.length_map]

/-- Inner-join row count is bounded by the right-join row count. -/
theorem inner_le_right (ldf rdf : DataFrame) (keys : List String) :
    (innerRows ldf rdf keys).length ≤ (rightJoinRows ldf rdf keys).length := by
  rw [innerRows_length,
    length_flatMap_filter_comm ldf.rows rdf.rows
      (fun lr rr => keyMatch ldf rdf keys lr rr)]
  unfold rightJoinRows
  apply length_flatMap_le
  intro rr
  show _ ≤ (if (ldf.rows.filter (fun lr => keyMatch ldf rdf keys lr rr)).isEmpty
      then [padRightRow ldf rdf keys rr]
      else (ldf.rows.filter (fun lr => keyMatch ldf rdf keys lr rr)).map
        (fun lr => combineRow ldf rdf keys lr rr)).length
  by_cases he : (ldf.rows.filter (fun lr => keyMatch ldf rdf keys lr rr)).isEmpty
  · rw [if_pos he, List.isEmpty_iff.mp he]
    exact Nat.zero_le 1
  · rw [if_neg he, List.length_map]

/-- Inner-join row count is bounded by the outer-join row count. -/
theorem inner_le_outer (ldf rdf : DataFrame) (keys : List String) :
    (innerRows ldf rdf keys).length ≤ (outerRows ldf rdf keys).length := by
  unfold outerRows
  rw [List.length_append]
  exact Nat.le_trans (inner_le_left ldf rdf keys) (Nat.le_add_right _ _)

/-- Claim C5: for two datasets sharing the key columns, the inner join never
has more rows than the left, right, or outer join on the same keys. -/
theorem inner_join_row_count_minimal (ldf rdf : DataFrame)
    (keys : List String) (_hne : keys ≠ [])
    (_hk : ∀ k ∈ keys, k ∈ ldf.colNames ∧ k ∈ rdf.colNames) :
    (merge ldf rdf keys JoinKind.inner).rows.length
        ≤ (merge ldf rdf keys JoinKind.left).rows.length ∧
      (merge ldf rdf keys JoinKind.inner).rows.length
        ≤ (merge ldf rdf keys JoinKind.right).rows.length ∧
      (merge ldf rdf keys JoinKind.inner).rows.length
        ≤ (merge ldf rdf keys JoinKind.outer).rows.length :=
  ⟨inner_le_left ldf rdf keys, inner_le_right ldf rdf keys,
    inner_le_outer ldf rdf keys⟩

/-- Witness for C5: the inequalities at the concrete scenario datasets. -/
theorem inner_join_row_count_minimal_witness :
    (merge dfA dfB ["id"] JoinKind.inner).rows.length
        ≤ (merge dfA dfB ["id"] JoinKind.left).rows.length ∧
      (merge dfA dfB ["id"] JoinKind.inner).rows.length
        ≤ (merge dfA dfB ["id"] JoinKind.right).rows.length ∧
      (merge dfA dfB ["id"] JoinKind.inner).rows.length
        ≤ (merge dfA dfB ["id"] JoinKind.outer).rows.length :=
  inner_join_row_count_minimal dfA dfB ["id"] (by decide) (by decide)

/-- Claim C4: the concrete join scenario.  Inner join of A and B on `id`
gives exactly the row (1, 10, 100); left join gives two rows, the second
with a missing `val2`; outer join gives three rows. -/
theorem join_scenario :
    mergeE dfA dfB ["id"] JoinKind.inner
        = Except.ok
          { cols := [("id", Dtype.numeric), ("val", Dtype.numeric),
                      ("val2", Dtype.numeric)],
            rows := [[Value.int 1, Value.int 10, Value.int 100]] } ∧
      mergeE dfA dfB ["id"] JoinKind.left
        = Except.ok
          { cols := [("id", Dtype.numeric), ("val", Dtype.numeric),
                      ("val2", Dtype.numeric)],
            rows := [[Value.int 1, Value.int 10, Value.int 100],
                     [Value.int 2, Value.int 20, Value.missing]] } ∧
      (mergeE dfA dfB ["id"] JoinKind.outer).map (fun d => d.rows.length)
        = Except.ok 3 :=
  ⟨rfl, rfl, rfl⟩

/-- Appending different suffixes to the same string gives different
strings. -/
theorem append_suffix_x_ne_y (s : String) : s ++ "_x" ≠ s ++ "_y" := by
  intro h
  have hd := congrArg String.data h
  rw [String.data_append, String.data_append] at hd
  exact absurd (List.append_cancel_left hd) (by decide)

/-- What a successful `pd.merge` call guarantees: the result is the merged
frame, the output column names are duplicate-free, and every key occurs in
both inputs. -/
theorem mergeE_ok_elim (ldf rdf : DataFrame) (keys : List String)
    (how : JoinKind) (j : DataFrame)
    (hok : mergeE ldf rdf keys how = Except.ok j) :
    j = merge ldf rdf keys how
      ∧ ((mergeOutCols ldf rdf keys).map Prod.fst).Nodup
      ∧ ∀ k ∈ keys, k ∈ ldf.colNames ∧ k ∈ rdf.colNames := by
  unfold mergeE at hok
  by_cases h1 : keys.isEmpty = true
  · rw [if_pos h1] at hok
    simp at hok
  · rw [if_neg h1] at hok
    by_cases h2 : (keys.all (fun k =>
        decide (k ∈ ldf.colNames) && decide (k ∈ rdf.colNames))) = true
    · rw [if_pos h2] at hok
      by_cases h3 : (keys.all
          (fun k => decide (dtypeOf ldf k = dtypeOf rdf k))) = true
      · rw [if_pos h3] at hok
        by_cases h4 : ((mergeOutCols ldf rdf keys).map Prod.fst).Nodup
        · rw [if_pos h4] at hok
          refine ⟨(Except.ok.inj hok).symm, h4, ?_⟩
          intro k hk
          have hb := List.all_eq_true.mp h2 k hk
          simp only [Bool.and_eq_true, decide_eq_true_eq] at hb
          exact hb
        · rw [if_neg h4] at hok
          simp at hok
      · rw [if_neg h3] at hok
        simp at hok
    · rw [if_neg h2] at hok
      simp at hok

/-- Claim C6: when both inputs of a successful join carry a non-key column
`X`, the output has the two distinctly-named columns `X_x` and `X_y`, each
exactly once, its column names are collision-free, and every key column
appears exactly once. -/
theorem join_column_collision (ldf rdf : DataFrame) (keys : List String)
    (how : JoinKind) (j : DataFrame) (X : String)
    (hok : mergeE ldf rdf keys how = Except.ok j)
    (hXl : X ∈ ldf.colNames) (hXr : X ∈ rdf.colNames) (hXk : X ∉ keys) :
    j.colNames.Nodup
      ∧ (X ++ "_x") ∈ j.colNames ∧ (X ++ "_y") ∈ j.colNames
      ∧ (X ++ "_x") ≠ (X ++ "_y")
      ∧ j.colNames.count (X ++ "_x") = 1
      ∧ j.colNames.count (X ++ "_y") = 1
      ∧ ∀ k ∈ keys, j.colNames.count k = 1 := by
  obtain ⟨hj, hnd, hkeys⟩ := mergeE_ok_elim ldf rdf keys how j hok
  subst hj
  have hcols : (merge ldf rdf keys how).colNames
      = (mergeOutCols ldf rdf keys).map Prod.fst := rfl
  rw [hcols]
  have hx : (X ++ "_x") ∈ (mergeOutCols ldf rdf keys).map Prod.fst := by
    unfold mergeOutCols
    rw [List.map_append]
    apply List.mem_append_left
    rw [List.map_map]
    obtain ⟨p, hp, hp1⟩ := List.mem_map.mp hXl
    apply List.mem_map.mpr
    refine ⟨p, hp, ?_⟩
    show Prod.fst (if p.1 ∈ keys then p
      else if p.1 ∈ rdf.colNames then (p.1 ++ "_x", p.2) else p) = X ++ "_x"
    rw [hp1, if_neg hXk, if_pos hXr]
  have hy : (X ++ "_y") ∈ (mergeOutCols ldf rdf keys).map Prod.fst := by
    unfold mergeOutCols
    rw [List.map_append]
    apply List.mem_append_right
    rw [List.map_map]
    obtain ⟨p, hp, hp1⟩ := List.mem_map.mp hXr
    apply List.mem_map.mpr
    refine ⟨p, ?_, ?_⟩
    · unfold rightNonKey
      exact List.mem_filter.mpr ⟨hp, decide_eq_true (hp1 ▸ hXk)⟩
    · show Prod.fst (if p.1 ∈ ldf.colNames then (p.1 ++ "_y", p.2) else p)
        = X ++ "_y"
      rw [hp1, if_pos hXl]
  refine ⟨hnd, hx, hy, append_suffix_x_ne_y X,
    List.count_eq_one_of_mem hnd hx, List.count_eq_one_of_mem hnd hy, ?_⟩
  intro k hk
  obtain ⟨hkl, _⟩ := hkeys k hk
  have hkmem : k ∈ (mergeOutCols ldf rdf keys).map Prod.fst := by
    unfold mergeOutCols
    rw [List.map_append]
    apply List.mem_append_left
    rw [List.map_map]
    obtain ⟨p, hp, hp1⟩ := List.mem_map.mp hkl
    apply List.mem_map.mpr
    refine ⟨p, hp, ?_⟩
    show Prod.fst (if p.1 ∈ keys then p
      else if p.1 ∈ rdf.colNames then (p.1 ++ "_x", p.2) else p) = k
    rw [hp1, if_pos hk]
    exact hp1
  exact List.count_eq_one_of_mem hnd hkmem

/-- Witness for C6: joining A with the shared-column variant of B on `id`
exhibits `val_x` and `val_y` exactly once each, with no name collision. -/
theorem join_column_collision_witness :
    (merge dfA dfBshared ["id"] JoinKind.inner).colNames.Nodup
      ∧ ("val" ++ "_x") ∈ (merge dfA dfBshared ["id"] JoinKind.inner).colNames
      ∧ ("val" ++ "_y") ∈ (merge dfA dfBshared ["id"] JoinKind.inner).colNames
      ∧ ("val" ++ "_x") ≠ ("val" ++ "_y")
      ∧ (merge dfA dfBshared ["id"] JoinKind.inner).colNames.count
          ("val" ++ "_x") = 1
      ∧ (merge dfA dfBshared ["id"] JoinKind.inner).colNames.count
          ("val" ++ "_y") = 1
      ∧ ∀ k ∈ ["id"],
          (merge dfA dfBshared ["id"] JoinKind.inner).colNames.count k = 1 :=
  join_column_collision dfA dfBshared ["id"] JoinKind.inner
    (merge dfA dfBshared ["id"] JoinKind.inner) "val" rfl
    (by decide) (by decide) (by decide)

/-- Claim C3: when `pd.merge` raises, the join section reports the failure
and returns the registry exactly as it was. -/
theorem join_failure_atomic (reg : Registry) (ui : JoinUi)
    (ldf rdf : DataFrame) (e : String)
    (hne : ui.left_name ≠ ui.right_name)
    (hl : regLookup reg ui.left_name = some ldf)
    (hr : regLookup reg ui.right_name = some rdf)
    (hjc : ui.join_cols ≠ [])
    (hcc : ui.join_cols.all (fun c => decide (c ∈ commonCols ldf rdf)) = true)
    (hclick : ui.joinClicked = true)
    (herr : mergeE ldf rdf ui.join_cols ui.join_type = Except.error e) :
    joinSection reg ui = (reg, some ("Join failed: " ++ e)) := by
  unfold joinSection
  rw [if_neg hne, hl, hr]
  show (if (commonCols ldf rdf).isEmpty then (reg, none)
    else if ui.join_cols.isEmpty then (reg, none)
    else if ¬ (ui.join_cols.all (fun c => decide (c ∈ commonCols ldf rdf)))
      then (reg, none)
    else if ¬ ui.joinClicked then (reg, none)
    else
      match mergeE ldf rdf ui.join_cols ui.join_type with
      | Except.ok j =>
          (regInsert reg (joinLabel ui.left_name ui.right_name) j, none)
      | Except.error e => (reg, some ("Join failed: " ++ e)))
    = (reg, some ("Join failed: " ++ e))
  obtain ⟨c0, hc0⟩ : ∃ c0, c0 ∈ ui.join_cols := by
    cases hcase : ui.join_cols with
    | nil => exact absurd hcase hjc
    | cons a t => exact ⟨a, hcase ▸ List.mem_cons_self a t⟩
  have hc0c : c0 ∈ commonCols ldf rdf := by
    have hb := List.all_eq_true.mp hcc c0 hc0
    simpa using hb
  have hcne : ¬ ((commonCols ldf rdf).isEmpty = true) := by
    intro hemp
    rw [List.isEmpty_iff.mp hemp] at hc0c
    exact absurd hc0c (List.not_mem_nil c0)
  rw [if_neg hcne]
  have hjne : ¬ (ui.join_cols.isEmpty = true) := by
    intro hemp
    exact hjc (List.isEmpty_iff.mp hemp)
  rw [if_neg hjne]
  rw [if_neg (fun hno => hno hcc)]
  rw [if_neg (fun hno => hno hclick)]
  rw [herr]

/-- Witness for C3: joining A with the incompatible-key variant of B fails
with the pandas dtype error and leaves the registry untouched. -/
theorem join_failure_atomic_witness :
    joinSection [("a.csv", dfA), ("b.csv", dfBbadKey)]
        (uiJoinClicked JoinKind.inner)
      = ([("a.csv", dfA), ("b.csv", dfBbadKey)],
          some ("Join failed: You are trying to merge on incompatible columns")) :=
  join_failure_atomic [("a.csv", dfA), ("b.csv", dfBbadKey)]
    (uiJoinClicked JoinKind.inner) dfA dfBbadKey
    "You are trying to merge on incompatible columns"
    (by decide) rfl rfl (by decide) (by decide) rfl rfl

/-! ## Script-level claims: empty selection, ingestion, persistence -/

/-- Claim C8: the analysis section yields nothing exactly when zero columns
are selected — the script warns and stops, so no filtered dataset, summary,
chart or export is produced; with at least one column it always yields the
projected, filtered frame. -/
theorem empty_selection_halts (df : DataFrame) (selected : List String)
    (sel : String → List Value → List Value) :
    edaSection df selected sel = none ↔ selected = [] := by
  cases selected <;> simp [edaSection]

/-- The registry built from `uploads` followed by one more file. -/
theorem buildRegistry_append_single (uploads : List UploadedFile)
    (f : UploadedFile) :
    buildRegistry (uploads ++ [f])
      = (buildRegistry uploads).bind
          (fun reg => (load_dataframe f).map (regUpdate reg)) := by
  unfold buildRegistry
  rw [List.foldlM_append]
  cases hb : uploads.foldlM
      (fun reg g => (load_dataframe g).map (regUpdate reg)) [] with
  | error e => rfl
  | ok reg =>
      show ((load_dataframe f).map (regUpdate reg)).bind
          (fun r => List.foldlM _ r []) = _
      cases load_dataframe f with
      | error e => rfl
      | ok ds => rfl

/-- Claim C2 counterexample: an unparseable `.csv` upload makes the whole
run raise, instead of contributing zero datasets; the registry of the other
files is not produced. -/
theorem ingestion_parse_failure_fatal :
    buildRegistry [fileA, fileBadCsv]
        = Except.error "EmptyDataError: No columns to parse from file"
      ∧ buildRegistry [fileA] = Except.ok [("a.csv", dfA)] :=
  ⟨by decide, by decide⟩

/-- Claim C2 (amended): a file with an unsupported extension contributes
zero datasets and leaves the registry as built from the other files; but a
`.csv` file whose content fails to parse raises an uncaught exception that
aborts ingestion — no registry is produced at all. -/
theorem ingestion_failure_behaviour :
    (∀ (uploads : List UploadedFile) (f : UploadedFile),
        supportedExt (fileExt f.name) = false →
        buildRegistry (uploads ++ [f]) = buildRegistry uploads) ∧
    (∀ (uploads : List UploadedFile) (reg : Registry) (f : UploadedFile)
        (e : String),
        fileExt f.name = "csv" → f.csvParse = Except.error e →
        buildRegistry uploads = Except.ok reg →
        buildRegistry (uploads ++ [f]) = Except.error e) := by
  constructor
  · intro uploads f hext
    rw [buildRegistry_append_single]
    have hload : load_dataframe f = Except.ok [] := by
      unfold supportedExt at hext
      simp only [Bool.or_eq_false_iff, decide_eq_false_iff_not] at hext
      obtain ⟨⟨h1, h2⟩, h3⟩ := hext
      unfold load_dataframe
      rw [if_neg h1, if_neg (fun hor => hor.elim h2 h3)]
    rw [hload]
    cases hb : buildRegistry uploads with
    | error e => rfl
    | ok reg =>
        show Except.ok (regUpdate reg []) = Except.ok reg
        rfl
  · intro uploads reg f e hext hparse hprev
    rw [buildRegistry_append_single, hprev]
    have hload : load_dataframe f = Except.error e := by
      unfold load_dataframe
      rw [if_pos hext, hparse]
    show (load_dataframe f).map (regUpdate reg) = Except.error e
    rw [hload]
    rfl

/-- Witness for C2's amended theorem: a `.txt` upload leaves the registry of
the other files unchanged, while the unparseable `.csv` aborts the run. -/
theorem ingestion_failure_behaviour_witness :
    buildRegistry [fileA, fileTxt] = buildRegistry [fileA]
      ∧ buildRegistry [fileA, fileBadCsv]
        = Except.error "EmptyDataError: No columns to parse from file" :=
  ⟨ingestion_failure_behaviour.1 [fileA] fileTxt (by decide),
    ingestion_failure_behaviour.2 [fileA] [("a.csv", dfA)] fileBadCsv
      "EmptyDataError: No columns to parse from file" (by decide) (by decide)
      (by decide)⟩

/-- Without a press of the join button on the current run, the join section
leaves the registry exactly as ingestion built it. -/
theorem joinSection_fst_not_clicked (reg : Registry) (ui : JoinUi)
    (h : ui.joinClicked = false) : (joinSection reg ui).1 = reg := by
  unfold joinSection
  by_cases h1 : ui.left_name = ui.right_name
  · rw [if_pos h1]
  · rw [if_neg h1]
    cases regLookup reg ui.left_name with
    | none => rfl
    | some ldf =>
        cases regLookup reg ui.right_name with
        | none => rfl
        | some rdf =>
            show (if (commonCols ldf rdf).isEmpty then (reg, none)
              else if ui.join_cols.isEmpty then (reg, none)
              else if ¬ (ui.join_cols.all
                  (fun c => decide (c ∈ commonCols ldf rdf)))
                then (reg, none)
              else if ¬ ui.joinClicked then (reg, none)
              else
                match mergeE ldf rdf ui.join_cols ui.join_type with
                | Except.ok j =>
                    (regInsert reg (joinLabel ui.left_name ui.right_name) j,
                      none)
                | Except.error e =>
                    (reg, some ("Join failed: " ++ e))).1 = reg
            by_cases h2 : (commonCols ldf rdf).isEmpty = true
            · rw [if_pos h2]
            · rw [if_neg h2]
              by_cases h3 : ui.join_cols.isEmpty = true
              · rw [if_pos h3]
              · rw [if_neg h3]
                by_cases h4 : (ui.join_cols.all
                    (fun c => decide (c ∈ commonCols ldf rdf))) = true
                · rw [if_neg (fun hno => hno h4)]
                  have hnc : ¬ (ui.joinClicked = true) := by simp [h]
                  rw [if_pos hnc]
                · rw [if_pos h4]

/-- Claim C9 counterexample: joining during one run stores the result in the
registry of that run only; a re-execution with the button no longer pressed
rebuilds the registry from the uploads and the joined dataset is gone. -/
theorem join_result_not_persisted :
    (scriptRegistry [fileA, fileB] (uiJoinClicked JoinKind.inner)).map
        (fun reg => (regLookup reg (joinLabel "a.csv" "b.csv")).isSome)
      = Except.ok true
      ∧ (scriptRegistry [fileA, fileB] (uiJoinIdle JoinKind.inner)).map
          (fun reg => (regLookup reg (joinLabel "a.csv" "b.csv")).isSome)
        = Except.ok false :=
  ⟨by decide, by decide⟩

/-- Claim C9 (amended): the script keeps no session-scoped store; each run's
registry is rebuilt from the current uploads, and on any run where the join
button is not pressed it equals the ingestion-built registry — a previous
run's join result is absent. -/
theorem registry_rebuilt_each_run (uploads : List UploadedFile) (ui : JoinUi)
    (h : ui.joinClicked = false) :
    scriptRegistry uploads ui = buildRegistry uploads := by
  unfold scriptRegistry
  cases hb : buildRegistry uploads with
  | error e => rfl
  | ok reg =>
      show Except.ok (joinSection reg ui).1 = Except.ok reg
      rw [joinSection_fst_not_clicked reg ui h]

/-- Witness for C9's amended theorem: the idle re-execution reproduces the
ingestion registry exactly. -/
theorem registry_rebuilt_each_run_witness :
    scriptRegistry [fileA, fileB] (uiJoinIdle JoinKind.inner)
      = buildRegistry [fileA, fileB] :=
  registry_rebuilt_each_run [fileA, fileB] (uiJoinIdle JoinKind.inner) rfl

end EDA
